import Mathlib

/-!
Verification of the claude-code-slack core: a shallow embedding of the
daemon's markdown-to-Slack translator, task processing and poll loop
(src/daemon/main.py) and of the worker's dispatcher, signature check and
webhook routing (src/worker/main.py, src/worker/job_handler.py), together
with theorems settling the specification's testable properties.

Network transport (httpx), the GitHub HTTP API, base64 decoding, JSON
parsing/serialization (json.loads / json.dumps) and the HMAC-SHA256
primitive are standard-library collaborators: they are modelled as
explicit function parameters or as decoded data, while every piece of
control flow and text manipulation written in this repository is
translated directly from the source.
-/

/-! ### Python string primitives (ASCII model)

`isPyWs` models Python's whitespace class for `str.strip` and the regex
class `\s` (space, tab, newline, carriage return, vertical tab, form feed).
-/

def isPyWs (c : Char) : Bool :=
  c = ' ' || c = '\t' || c = '\n' || c = '\r' || c = '\x0b' || c = '\x0c'

/-- Model of Python `str.strip()` on a character list. -/
def pyStripL (l : List Char) : List Char :=
  ((l.dropWhile isPyWs).reverse.dropWhile isPyWs).reverse

/-- Model of Python `str.strip()`. -/
def pyStripS (s : String) : String :=
  String.mk (pyStripL s.toList)

/-- Model of Python `str.lower()` (ASCII case mapping). -/
def pyLowerS (s : String) : String :=
  String.mk (s.toList.map Char.toLower)

/-- Model of Python slicing `s[:n]` (first `n` code points). -/
def pyTakeS (n : Nat) (s : String) : String :=
  String.mk (s.toList.take n)

/-- `listStartsWith pat l` is true when `pat` is an initial segment of `l`. -/
def listStartsWith : List Char → List Char → Bool
  | [], _ => true
  | _ :: _, [] => false
  | p :: ps, c :: cs => p = c && listStartsWith ps cs

/-- Leftmost split of `l` around an occurrence of `d`:
`splitFirst d l = some (b, a)` means `l = b ++ d ++ a` with the occurrence
of `d` leftmost.  Used to model leftmost regex matching of a literal. -/
def splitFirst (d : List Char) : List Char → Option (List Char × List Char)
  | [] => none
  | c :: cs =>
    if listStartsWith d (c :: cs) then some ([], (c :: cs).drop d.length)
    else
      match splitFirst d cs with
      | some (b, a) => some (c :: b, a)
      | none => none

/-- Model of Python `s.split("\n")` on character lists (empty parts kept). -/
def splitNl : List Char → List (List Char)
  | [] => [[]]
  | c :: rest =>
    if c = '\n' then [] :: splitNl rest
    else
      match splitNl rest with
      | [] => [[c]]
      | l :: ls => (c :: l) :: ls

/-- Model of Python `"\n".join(lines)` on strings. -/
def joinWithNl : List String → String
  | [] => ""
  | [x] => x
  | x :: xs => x ++ "\n" ++ joinWithNl xs

/-! ### Markup Translator — `markdown_to_slack` (src/daemon/main.py:155-216)

The translator first splits the text on fenced code blocks with
`re.split(r"(```[\s\S]*?```)", text)`: odd-indexed parts are the
(captured) code blocks and are emitted unchanged; even-indexed parts are
rewritten line by line.  Each regex substitution of the source is encoded
as a dedicated left-to-right scanning function with Python `re`
semantics (leftmost match, non-greedy `(.+?)` closed by the leftmost
closing delimiter, `.` not matching a newline — lines contain none).
A fuel argument bounds the recursion; it strictly exceeds the number of
scanning steps (each step consumes at least one character), so the fuel
never runs out on the initial call.
-/

def fenceL : List Char := "```".toList

/-- Splitting on ```` ```[\s\S]*?``` ```` with the delimiter captured:
returns the alternating list text, code, text, code, ..., text. -/
def splitFencedF : Nat → List Char → List (List Char)
  | 0, cs => [cs]
  | fuel + 1, cs =>
    match splitFirst fenceL cs with
    | none => [cs]
    | some (pre, afterOpen) =>
      match splitFirst fenceL afterOpen with
      | none => [cs]
      | some (content, rest) =>
        pre :: (fenceL ++ content ++ fenceL) :: splitFencedF fuel rest

def splitFenced (cs : List Char) : List (List Char) :=
  splitFencedF cs.length cs

/-- Model of `re.sub(d + "(.+?)" + d, pre + r"\1" + post, line)` for a
literal delimiter `d`: used for `***…***`, `**…**` and `~~…~~`. -/
def subWrapF (d pre post : List Char) : Nat → List Char → List Char
  | _, [] => []
  | 0, cs => cs
  | fuel + 1, c :: cs =>
    if listStartsWith d (c :: cs) then
      match (c :: cs).drop d.length with
      | [] => c :: subWrapF d pre post fuel cs
      | x :: rest =>
        match splitFirst d rest with
        | some (b, a) => pre ++ (x :: b) ++ post ++ subWrapF d pre post fuel a
        | none => c :: subWrapF d pre post fuel cs
    else c :: subWrapF d pre post fuel cs

def subWrap (d pre post : List Char) (cs : List Char) : List Char :=
  subWrapF d pre post (cs.length + 1) cs

/-- Model of `re.sub(r"\[([^\]]+)\]\(([^)]+)\)", r"<\2|\1>", line)`. -/
def subLinkF : Nat → List Char → List Char
  | 0, cs => cs
  | _ + 1, [] => []
  | fuel + 1, c :: cs =>
    if c = '[' then
      let label := cs.takeWhile (fun x => x ≠ ']')
      match cs.dropWhile (fun x => x ≠ ']') with
      | ']' :: '(' :: rest2 =>
        let url := rest2.takeWhile (fun x => x ≠ ')')
        match rest2.dropWhile (fun x => x ≠ ')') with
        | ')' :: rest3 =>
          if label ≠ [] ∧ url ≠ [] then
            ('<' :: url) ++ ('|' :: label) ++ ('>' :: subLinkF fuel rest3)
          else c :: subLinkF fuel cs
        | _ => c :: subLinkF fuel cs
      | _ => c :: subLinkF fuel cs
    else c :: subLinkF fuel cs

def subLink (cs : List Char) : List Char :=
  subLinkF (cs.length + 1) cs

/-- Model of `re.sub(r"!\[([^\]]*)\]\(([^)]+)\)", r"<\2|\1>", line)`
(the alt text may be empty; this substitution runs after the link one). -/
def subImageF : Nat → List Char → List Char
  | 0, cs => cs
  | _ + 1, [] => []
  | fuel + 1, c :: cs =>
    if c = '!' then
      match cs with
      | '[' :: rest =>
        let alt := rest.takeWhile (fun x => x ≠ ']')
        match rest.dropWhile (fun x => x ≠ ']') with
        | ']' :: '(' :: rest2 =>
          let url := rest2.takeWhile (fun x => x ≠ ')')
          match rest2.dropWhile (fun x => x ≠ ')') with
          | ')' :: rest3 =>
            if url ≠ [] then
              ('<' :: url) ++ ('|' :: alt) ++ ('>' :: subImageF fuel rest3)
            else c :: subImageF fuel cs
          | _ => c :: subImageF fuel cs
        | _ => c :: subImageF fuel cs
      | _ => c :: subImageF fuel cs
    else c :: subImageF fuel cs

def subImage (cs : List Char) : List Char :=
  subImageF (cs.length + 1) cs

/-- Model of `re.match(r"^(#{1,6})\s+(.+)$", line)`, returning the heading
text (group 2).  When all text after the hashes is whitespace, `\s+`
backtracks to leave exactly one (whitespace) character for `(.+)$`. -/
def matchHeader (line : List Char) : Option (List Char) :=
  let hashes := line.takeWhile (fun c => c = '#')
  let rest := line.dropWhile (fun c => c = '#')
  if 1 ≤ hashes.length ∧ hashes.length ≤ 6 then
    let ws := rest.takeWhile isPyWs
    let content := rest.dropWhile isPyWs
    if ws = [] then none
    else if content ≠ [] then some content
    else if 2 ≤ ws.length then some [ws.getLastD ' ']
    else none
  else none

/-- Model of `re.match(r"^---+$", line.strip())`. -/
def isHrLine (line : List Char) : Bool :=
  let s := pyStripL line
  (s.all fun c => c = '-') && decide (3 ≤ s.length)

/-- Model of `re.match(r"^(\s*)\*\s+(.+)$", line)`, returning the leading
whitespace (group 1) and the item text (group 2), with the same `\s+`
backtracking as in `matchHeader`. -/
def matchBullet (l : List Char) : Option (List Char × List Char) :=
  let indent := l.takeWhile isPyWs
  match l.dropWhile isPyWs with
  | '*' :: rest =>
    let ws := rest.takeWhile isPyWs
    let content := rest.dropWhile isPyWs
    if ws = [] then none
    else if content ≠ [] then some (indent, content)
    else if 2 ≤ ws.length then some (indent, [ws.getLastD ' '])
    else none
  | _ => none

/-- One line of a non-code segment, as in the `for line in lines` body:
headers and horizontal rules short-circuit; otherwise the five
substitutions run in source order and the bullet rewrite runs last. -/
def convertLine (line : List Char) : List Char :=
  match matchHeader line with
  | some content => '*' :: (content ++ ['*'])
  | none =>
    if isHrLine line then []
    else
      let l1 := subWrap "***".toList "*_".toList "_*".toList line
      let l2 := subWrap "**".toList "*".toList "*".toList l1
      let l3 := subLink l2
      let l4 := subImage l3
      let l5 := subWrap "~~".toList "~".toList "~".toList l4
      match matchBullet l5 with
      | some (indent, content) => indent ++ ("• ".toList ++ content)
      | none => l5

/-- A non-code segment: split on newlines, convert each line, re-join. -/
def convertSegment (seg : List Char) : List Char :=
  List.intercalate ['\n'] ((splitNl seg).map convertLine)

/-- The `for i, part in enumerate(parts)` loop: parts at odd index (the
captured code blocks) are kept verbatim, the others are converted.  The
boolean argument is the parity of the current index (`true` = odd). -/
def processParts : Bool → List (List Char) → List (List Char)
  | _, [] => []
  | false, p :: ps => convertSegment p :: processParts true ps
  | true, p :: ps => p :: processParts false ps

/-- The parts at odd index of the fenced split: the code-block regions. -/
def codeParts : Bool → List (List Char) → List (List Char)
  | _, [] => []
  | false, _ :: ps => codeParts true ps
  | true, p :: ps => p :: codeParts false ps

/-- `markdown_to_slack` (src/daemon/main.py:155-216). -/
def markdown_to_slack (text : String) : String :=
  String.mk (List.flatten (processParts false (splitFenced text.toList)))

/-! ### Thread context — `format_thread_context` (src/daemon/main.py:274-300)

A Slack message is modelled by the three fields the daemon reads with
`msg.get(...)`; an absent field is the empty string (for these string
fields Python truthiness is non-emptiness).
-/

structure SlackMsg where
  text : String := ""
  bot_id : String := ""
  subtype : String := ""
deriving DecidableEq, Repr

/-- Model of `re.sub(r"<@[A-Z0-9]+>\s*", "", text)` (mention stripping). -/
def stripMentionsF : Nat → List Char → List Char
  | 0, cs => cs
  | _ + 1, [] => []
  | fuel + 1, c :: cs =>
    if c = '<' then
      match cs with
      | '@' :: rest =>
        let idrun := rest.takeWhile (fun x => ('A' ≤ x && x ≤ 'Z') || ('0' ≤ x && x ≤ '9'))
        match rest.dropWhile (fun x => ('A' ≤ x && x ≤ 'Z') || ('0' ≤ x && x ≤ '9')) with
        | '>' :: rest2 =>
          if idrun ≠ [] then stripMentionsF fuel (rest2.dropWhile isPyWs)
          else c :: stripMentionsF fuel cs
        | _ => c :: stripMentionsF fuel cs
      | _ => c :: stripMentionsF fuel cs
    else c :: stripMentionsF fuel cs

def stripMentions (s : String) : String :=
  String.mk (stripMentionsF (s.toList.length + 1) s.toList)

/-- `format_thread_context` (src/daemon/main.py:274-300): skips the last
message (the current request), strips mentions, and labels each remaining
non-empty message `Bot:` or `User:` (skipping system/join messages). -/
def format_thread_context (messages : List SlackMsg) : String :=
  if messages.length ≤ 1 then ""
  else
    let contextLines := messages.dropLast.foldl
      (fun acc msg =>
        let text := pyStripS (stripMentions msg.text)
        if text = "" then acc
        else if msg.bot_id ≠ "" then acc ++ ["Bot: " ++ text]
        else if msg.subtype = "" then acc ++ ["User: " ++ text]
        else acc)
      []
    let allLines := "Previous conversation in this thread:" :: contextLines
    if allLines.length ≤ 1 then "" else joinWithNl allLines ++ "\n"

/-! ### Task processing — `process_task` (src/daemon/main.py:306-355)

A task record carries the fields the daemon reads plus the transient
`_sha` / `_path` fields attached by `read_task` (named `sha` / `path`
here).  The side effects of one `process_task` invocation are recorded as
an explicit effect trace; the external collaborators (the thread-history
fetch result and the Claude CLI output) are passed as arguments.
-/

structure TaskRec where
  task_id : String := ""
  prompt : String := ""
  channel_id : String := ""
  response_url : String := ""
  thread_ts : String := ""
  sha : String := ""
  path : String := ""
deriving DecidableEq, Repr

inductive DaemonEffect where
  | respondUrl (url text : String)
  | postSlack (channel text thread_ts : String)
  | fetchThread (channel ts : String)
  | runClaude (prompt context : String)
  | deleteTask (path sha : String)
  | syncWorkspace
deriving DecidableEq, Repr

/-- The truncation step of `process_task` (src/daemon/main.py:339-341):
Slack has a 4000-character hard limit for a single message, the daemon
truncates to 3900 characters plus a marker. -/
def truncate_for_slack (output : String) : String :=
  if output.length > 3900 then pyTakeS 3900 output ++ "\n...(truncated)" else output

/-- `process_task` (src/daemon/main.py:306-355) as an effect trace:
acknowledgment, optional thread-context fetch, Claude invocation,
markdown conversion, truncation, result delivery, task deletion,
workspace sync. -/
def process_task (task : TaskRec) (threadMessages : List SlackMsg)
    (claudeOutput : String) : List DaemonEffect :=
  let ack_text := "Processing: `" ++ pyTakeS 80 task.prompt ++ "`..."
  let ackE : List DaemonEffect :=
    if task.response_url ≠ "" then [.respondUrl task.response_url ack_text]
    else if task.channel_id ≠ "" then [.postSlack task.channel_id ack_text task.thread_ts]
    else []
  let fetchE : List DaemonEffect :=
    if task.thread_ts ≠ "" ∧ task.channel_id ≠ "" then
      [.fetchThread task.channel_id task.thread_ts]
    else []
  let context :=
    if task.thread_ts ≠ "" ∧ task.channel_id ≠ "" then format_thread_context threadMessages
    else ""
  let output := truncate_for_slack (markdown_to_slack claudeOutput)
  let deliverE : List DaemonEffect :=
    if task.response_url ≠ "" then [.respondUrl task.response_url output]
    else if task.channel_id ≠ "" then [.postSlack task.channel_id output task.thread_ts]
    else []
  ackE ++ fetchE ++ [.runClaude task.prompt context] ++ deliverE
    ++ [.deleteTask task.path task.sha] ++ [.syncWorkspace]

/-- Number of posts to a one-shot callback URL in an effect trace. -/
def countRespondUrl (l : List DaemonEffect) : Nat :=
  l.countP fun e =>
    match e with
    | .respondUrl _ _ => true
    | _ => false

/-! ### Task reading and the poll loop (src/daemon/main.py:72-86, 421-443)

`read_task` fetches a task file and parses it.  The HTTP layer is
modelled as the decoded response (status, base64-decoded content, sha);
`json.loads` is a standard-library parameter `jsonLoads` whose `none`
result models a raised `JSONDecodeError` — the source calls `json.loads`
with no try/except, so a malformed file makes `read_task` raise, which
the model records with the `raised` outcome. -/

structure TaskFields where
  task_id : String := ""
  prompt : String := ""
  channel_id : String := ""
  response_url : String := ""
  thread_ts : String := ""
deriving DecidableEq, Repr

structure GhFileResponse where
  status : Nat
  content : String
  sha : String
deriving DecidableEq, Repr

inductive ReadTaskResult where
  /-- `return None` (HTTP status other than 200). -/
  | httpAbsent
  /-- the parsed task with `_sha` and `_path` attached. -/
  | ok (t : TaskRec)
  /-- an uncaught exception escaping `read_task` (e.g. `json.loads`). -/
  | raised
deriving DecidableEq, Repr

/-- `read_task` (src/daemon/main.py:72-86). -/
def read_task (jsonLoads : String → Option TaskFields) (resp : GhFileResponse)
    (path : String) : ReadTaskResult :=
  if resp.status ≠ 200 then .httpAbsent
  else
    match jsonLoads resp.content with
    | none => .raised
    | some f => .ok ⟨f.task_id, f.prompt, f.channel_id, f.response_url, f.thread_ts, resp.sha, path⟩

/-- The `for item in pending` body of one `poll_loop` iteration
(src/daemon/main.py:427-443): tasks are read and processed sequentially;
an unreadable (`None`) task is skipped; a raised exception aborts the
iteration (it is caught by the `except` at the loop level, so the
remaining items wait for the next poll).  `msgsOf` and `outOf` supply the
external collaborators for each processed task. -/
def poll_iteration (jsonLoads : String → Option TaskFields)
    (msgsOf : TaskRec → List SlackMsg) (outOf : TaskRec → String) :
    List (String × GhFileResponse) → List DaemonEffect
  | [] => []
  | (path, resp) :: rest =>
    match read_task jsonLoads resp path with
    | .raised => []
    | .httpAbsent => poll_iteration jsonLoads msgsOf outOf rest
    | .ok t => process_task t (msgsOf t) (outOf t) ++ poll_iteration jsonLoads msgsOf outOf rest

/-! ### Signature verification — `verify_slack_signature` (src/worker/main.py:52-70)

`hmacSha256Hex key msg` models
`hmac.new(key.encode(), msg.encode(), hashlib.sha256).hexdigest()`,
and `parseFloat` models `float(timestamp)` with `none` for the
`ValueError`/`TypeError` of an unparseable header; `now` models
`time.time()`.  Both primitives are standard-library collaborators, kept
abstract: the theorems hold for every choice of them. -/

def verify_slack_signature (secret : String)
    (hmacSha256Hex : String → String → String)
    (parseFloat : String → Option ℚ) (now : ℚ)
    (body : String) (timestamp : String) (signature : String) : Bool :=
  if secret = "" then true
  else
    match parseFloat timestamp with
    | none => false
    | some t =>
      if abs (now - t) > 300 then false
      else
        let base := "v0:" ++ timestamp ++ ":" ++ body
        let expected := "v0=" ++ hmacSha256Hex secret base
        expected == signature

/-! ### Dispatcher — `JobHandler.dispatch` (src/worker/job_handler.py:27-88)

The handler's side effects are an explicit action trace: `respond` models
`_respond` (response_url post or `chat.postMessage`), `enqueue` models
the Task Queue producer call `self.github.write_file(task_path,
task_json, commit_msg)` inside `_dispatch_to_daemon`.  The generated
`task_id` (`uuid.uuid4()`), `created_at` timestamp and the success of the
GitHub write are external inputs; the JSON serialization of the task
record (`json.dumps`) is a standard-library collaborator, so the enqueue
action carries the task record itself. -/

structure WorkerTask where
  task_id : String
  prompt : String
  requested_by : String
  channel_id : String
  thread_ts : String
  response_url : String
  created_at : String
deriving DecidableEq, Repr

inductive WorkerAction where
  | respond (channel_id text response_url thread_ts : String)
  | enqueue (path : String) (task : WorkerTask) (commitMsg : String)
deriving DecidableEq, Repr

/-- `JobHandler._handle_help` (src/worker/job_handler.py:90-102). -/
def handle_help : String :=
  "*Claude Code Slack*\n\nSend any message and it will be processed by Claude Code running in your workspace.\n\n*Built-in commands:*\n`help` — This message\n`status` — Check if the bot is running\n\n*Examples:*\n• `What files are in the src/ directory?`\n• `Summarize the README`\n• `Run the tests and tell me what failed`\n"

/-- `JobHandler._dispatch_to_daemon` (src/worker/job_handler.py:58-88). -/
def JobHandler.dispatch_to_daemon (writeOk : Bool) (task_id created_at : String)
    (text user_id channel_id response_url thread_ts : String) : List WorkerAction :=
  let task : WorkerTask := ⟨task_id, text, user_id, channel_id, thread_ts, response_url, created_at⟩
  let task_path := "tasks/" ++ task_id ++ ".json"
  let commit_msg := "Task " ++ task_id ++ ": " ++ pyTakeS 50 text
  if writeOk then [.enqueue task_path task commit_msg]
  else
    [.enqueue task_path task commit_msg,
     .respond channel_id "Failed to dispatch task. Check GitHub token permissions." response_url thread_ts]

/-- `JobHandler.dispatch` (src/worker/job_handler.py:27-56). -/
def JobHandler.dispatch (writeOk : Bool) (task_id created_at : String)
    (text user_id channel_id response_url thread_ts : String) : List WorkerAction :=
  let text_lower := pyStripS (pyLowerS text)
  if text_lower = "help" ∨ text_lower = "" then
    [.respond channel_id handle_help response_url thread_ts]
  else if text_lower = "status" ∨ text_lower = "ping" then
    [.respond channel_id "Bot is running. Daemon connectivity: checking via GitHub..." response_url thread_ts]
  else
    JobHandler.dispatch_to_daemon writeOk task_id created_at text user_id channel_id response_url thread_ts

/-- Number of Task Queue producer invocations in an action trace. -/
def countProducer (l : List WorkerAction) : Nat :=
  l.countP fun a =>
    match a with
    | .enqueue _ _ _ => true
    | _ => false

/-! ### Webhook routing — `slack_events` (src/worker/main.py:111-196)

Model of the JSON (Events API) branch of the handler, after signature
verification and JSON decoding: the payload carries its `type`, the
`challenge` value and the inner event object (absent fields are the
empty string; for `bot_id` Python truthiness is non-emptiness). -/

structure SlackEvent where
  bot_id : String := ""
  subtype : String := ""
  text : String := ""
  user : String := ""
  channel : String := ""
  thread_ts : String := ""
  ts : String := ""
deriving DecidableEq, Repr

structure EventPayload where
  type : String := ""
  challenge : String := ""
  event : SlackEvent := {}
deriving DecidableEq, Repr

inductive WebhookOutcome where
  /-- the URL-verification echo `{"challenge": ...}`. -/
  | challengeResponse (challenge : String)
  /-- `{"ok": True}` returned without scheduling `handle_event`. -/
  | okIgnoredBot
  /-- `{"ok": True}` with `handle_event` scheduled: the Dispatcher is
  invoked with these (mention-stripped) arguments. -/
  | okDispatched (text user_id channel_id thread_ts : String)
  /-- `{"ok": True}` for any other payload type. -/
  | okOther
deriving DecidableEq, Repr

/-- `handle_event` (src/worker/main.py:179-196): the arguments it passes
to `job_handler.dispatch`. -/
def handle_event (event : SlackEvent) : WebhookOutcome :=
  let text0 := pyStripS event.text
  let text := pyStripS (stripMentions text0)
  let user_id := if event.user = "" then "unknown" else event.user
  let thread_ts := if event.thread_ts ≠ "" then event.thread_ts else event.ts
  .okDispatched text user_id event.channel thread_ts

/-- The JSON branch of `slack_events` (src/worker/main.py:132-148). -/
def slack_events (payload : EventPayload) : WebhookOutcome :=
  if payload.type = "url_verification" then .challengeResponse payload.challenge
  else if payload.type = "event_callback" then
    if payload.event.bot_id ≠ "" ∨ payload.event.subtype = "bot_message" then .okIgnoredBot
    else handle_event payload.event
  else .okOther

/-! ### Supporting lemmas -/

theorem string_mk_length (l : List Char) : (String.mk l).length = l.length := rfl

theorem string_toList_length (s : String) : s.toList.length = s.length := rfl

/-- Every part of the fenced split kept verbatim by `processParts` (the
odd-indexed code blocks) is also a member of the processed list. -/
theorem codeParts_mem_processParts (p : List Char) :
    ∀ (b : Bool) (ps : List (List Char)), p ∈ codeParts b ps → p ∈ processParts b ps := by
  intro b ps
  induction ps generalizing b with
  | nil => intro h; cases b <;> simp [codeParts] at h
  | cons q ps ih =>
    intro h
    cases b with
    | false =>
      simp only [codeParts] at h
      exact List.mem_cons_of_mem _ (ih true h)
    | true =>
      simp only [codeParts] at h
      rcases List.mem_cons.mp h with h1 | h2
      · exact h1 ▸ List.mem_cons_self _ _
      · exact List.mem_cons_of_mem _ (ih false h2)

/-- The only `deleteTask` effect `process_task` emits is for the task's
own `_path` and `_sha`. -/
theorem deleteTask_mem_process_task {p s : String} {t : TaskRec}
    {m : List SlackMsg} {o : String}
    (h : DaemonEffect.deleteTask p s ∈ process_task t m o) : p = t.path ∧ s = t.sha := by
  unfold process_task at h
  split_ifs at h <;> simp_all [List.mem_append]

/-- `read_task` attaches the requested path as the `_path` field. -/
theorem read_task_ok_path {jl : String → Option TaskFields} {r : GhFileResponse}
    {q : String} {t : TaskRec} (h : read_task jl r q = .ok t) : t.path = q := by
  by_cases hs : r.status ≠ 200
  · simp [read_task, hs] at h
  · cases hjl : jl r.content with
    | none => simp [read_task, hs, hjl] at h
    | some f =>
      simp [read_task, hs, hjl] at h
      subst h
      rfl

/-! ### Claims -/

/-- C1: for every input string, every fenced code region (an odd-indexed
part of the split on ```` ```[\s\S]*?``` ````) appears unchanged — as a
contiguous infix — in the output of `markdown_to_slack`; the rewriting
rules are applied only to the parts outside those regions. -/
theorem markdown_to_slack_preserves_code_fences (s : String) (p : List Char)
    (hp : p ∈ codeParts false (splitFenced s.toList)) :
    p <:+: (markdown_to_slack s).toList :=
  List.infix_of_mem_flatten (codeParts_mem_processParts p false _ hp)

theorem markdown_to_slack_preserves_code_fences_witness :
    "```**b** [l](u)```".toList ∈ codeParts false (splitFenced "# t\n```**b** [l](u)```\n**x**".toList) ∧
    "```**b** [l](u)```".toList <:+: (markdown_to_slack "# t\n```**b** [l](u)```\n**x**").toList :=
  ⟨by decide,
   markdown_to_slack_preserves_code_fences "# t\n```**b** [l](u)```\n**x**" _ (by decide)⟩

/-- C5: the six concrete translation equations of the Markup Translator. -/
theorem markdown_to_slack_examples :
    markdown_to_slack "**bold**" = "*bold*" ∧
    markdown_to_slack "***both***" = "*_both_*" ∧
    markdown_to_slack "[a](http://x)" = "<http://x|a>" ∧
    markdown_to_slack "~~s~~" = "~s~" ∧
    markdown_to_slack "## Title" = "*Title*" ∧
    markdown_to_slack "* item" = "• item" := by
  decide

/-- C2 (counterexample): the trimmed lowercased text `"status"` is
non-empty and different from `"help"`, yet `dispatch` never invokes the
Task Queue producer — `"status"` (like `"ping"`) is a built-in answered
directly by the worker. -/
theorem dispatch_status_counterexample :
    pyStripS (pyLowerS "status") ≠ "" ∧
    pyStripS (pyLowerS "status") ≠ "help" ∧
    countProducer (JobHandler.dispatch true "abc12345" "2024-01-01T00:00:00+00:00"
      "status" "U1" "C1" "https://hooks.example/cb" "") = 0 := by
  decide

/-- C2 (amended): dispatch whose trimmed lowercased text is `"help"`
never calls the producer; dispatch whose trimmed lowercased text is
non-empty and none of the built-ins `"help"`, `"status"`, `"ping"` calls
the producer exactly once. -/
theorem dispatch_producer_calls (writeOk : Bool)
    (task_id created_at text user_id channel_id response_url thread_ts : String) :
    (pyStripS (pyLowerS text) = "help" →
      countProducer (JobHandler.dispatch writeOk task_id created_at text
        user_id channel_id response_url thread_ts) = 0) ∧
    (pyStripS (pyLowerS text) ≠ "" → pyStripS (pyLowerS text) ≠ "help" →
     pyStripS (pyLowerS text) ≠ "status" → pyStripS (pyLowerS text) ≠ "ping" →
      countProducer (JobHandler.dispatch writeOk task_id created_at text
        user_id channel_id response_url thread_ts) = 1) := by
  constructor
  · intro h
    simp [JobHandler.dispatch, h, countProducer]
  · intro h1 h2 h3 h4
    cases writeOk <;>
      simp [JobHandler.dispatch, JobHandler.dispatch_to_daemon, h1, h2, h3, h4, countProducer]

theorem dispatch_producer_calls_witness :
    countProducer (JobHandler.dispatch true "t1" "now" " HELP " "U" "C" "" "") = 0 ∧
    countProducer (JobHandler.dispatch true "t1" "now" "list files" "U" "C" "" "") = 1 :=
  ⟨(dispatch_producer_calls true "t1" "now" " HELP " "U" "C" "" "").1 (by decide),
   (dispatch_producer_calls true "t1" "now" "list files" "U" "C" "" "").2
     (by decide) (by decide) (by decide) (by decide)⟩

/-- C3 (counterexample): a task carrying a one-shot callback URL gets the
URL posted to exactly twice during one `process_task` invocation (the
`Processing:` acknowledgment and the final result), contradicting
"at most once". -/
theorem process_task_posts_twice_counterexample :
    (⟨"t1", "hi", "", "https://hooks.example/cb", "", "sha1", "tasks/t1.json"⟩ : TaskRec).response_url ≠ "" ∧
    countRespondUrl (process_task
      ⟨"t1", "hi", "", "https://hooks.example/cb", "", "sha1", "tasks/t1.json"⟩ [] "ok") = 2 := by
  decide

/-- C3 (amended): during one `process_task` invocation the one-shot
callback URL is posted to exactly twice when the task carries one (once
for the acknowledgment, once for the result) and never otherwise — in
particular at most twice. -/
theorem process_task_response_url_post_count (task : TaskRec)
    (msgs : List SlackMsg) (out : String) :
    countRespondUrl (process_task task msgs out) =
      if task.response_url = "" then 0 else 2 := by
  by_cases h : task.response_url = "" <;>
    by_cases h2 : task.channel_id = "" <;>
      by_cases h3 : task.thread_ts = "" <;>
        simp [process_task, countRespondUrl, h, h2, h3, List.countP_append, List.countP_cons]

/-- C4: with a non-empty signing secret, a request whose parsed timestamp
differs from the current time by more than 300 seconds is rejected
regardless of the signature, and a request with a fresh timestamp whose
signature is exactly `"v0=" ++ hex-HMAC-SHA256(secret, "v0:" ++ timestamp
++ ":" ++ body)` is accepted — for every choice of the abstract HMAC and
float-parsing primitives. -/
theorem verify_slack_signature_spec (secret : String)
    (hh : String → String → String) (pf : String → Option ℚ) (now t : ℚ)
    (body ts sig : String)
    (hsecret : secret ≠ "") (hpf : pf ts = some t) :
    (abs (now - t) > 300 →
      verify_slack_signature secret hh pf now body ts sig = false) ∧
    (abs (now - t) ≤ 300 →
      sig = "v0=" ++ hh secret ("v0:" ++ ts ++ ":" ++ body) →
      verify_slack_signature secret hh pf now body ts sig = true) := by
  constructor
  · intro hstale
    simp [verify_slack_signature, hsecret, hpf, hstale]
  · intro hfresh hsig
    simp [verify_slack_signature, hsecret, hpf, hsig, not_lt.mpr hfresh]

theorem verify_slack_signature_spec_witness :
    verify_slack_signature "secret" (fun _ _ => "abc")
      (fun s => if s = "1000" then some 1000 else none) 1301 "body" "1000" "v0=good" = false ∧
    verify_slack_signature "secret" (fun _ _ => "abc")
      (fun s => if s = "1000" then some 1000 else none) 1000 "body" "1000" "v0=abc" = true :=
  ⟨(verify_slack_signature_spec "secret" (fun _ _ => "abc")
      (fun s => if s = "1000" then some 1000 else none) 1301 1000 "body" "1000" "v0=good"
      (by decide) (by simp)).1 (by norm_num),
   (verify_slack_signature_spec "secret" (fun _ _ => "abc")
      (fun s => if s = "1000" then some 1000 else none) 1000 1000 "body" "1000" "v0=abc"
      (by decide) (by simp)).2 (by norm_num) rfl⟩

/-- C6: the delivery truncation step of `process_task`: output longer
than the 3900-character budget is cut to its first 3900 characters plus
the truncation marker (total 3915 characters, under the 4000-character
Slack hard limit); output at or under the budget is delivered unchanged,
and the result never exceeds 4000 characters. -/
theorem truncate_for_slack_spec (s : String) :
    (s.length > 3900 →
      truncate_for_slack s = pyTakeS 3900 s ++ "\n...(truncated)" ∧
      (truncate_for_slack s).length = 3915) ∧
    (s.length ≤ 3900 → truncate_for_slack s = s) ∧
    (truncate_for_slack s).length ≤ 4000 := by
  have hlen : ∀ h : s.length > 3900, (pyTakeS 3900 s ++ "\n...(truncated)").length = 3915 := by
    intro h
    rw [String.length_append]
    have h1 : (pyTakeS 3900 s).length = 3900 := by
      simp only [pyTakeS, string_mk_length, List.length_take, string_toList_length]
      omega
    rw [h1]
    rfl
  refine ⟨?_, ?_, ?_⟩
  · intro h
    have he : truncate_for_slack s = pyTakeS 3900 s ++ "\n...(truncated)" := by
      simp [truncate_for_slack, h]
    exact ⟨he, by rw [he, hlen h]⟩
  · intro h
    simp [truncate_for_slack]
    omega
  · by_cases h : s.length > 3900
    · have he : truncate_for_slack s = pyTakeS 3900 s ++ "\n...(truncated)" := by
        simp [truncate_for_slack, h]
      rw [he, hlen h]
      omega
    · have he : truncate_for_slack s = s := by
        simp [truncate_for_slack, h]
      rw [he]
      omega

theorem truncate_for_slack_spec_witness :
    ((String.mk (List.replicate 3901 'a')).length > 3900 ∧
      truncate_for_slack (String.mk (List.replicate 3901 'a')) =
        pyTakeS 3900 (String.mk (List.replicate 3901 'a')) ++ "\n...(truncated)" ∧
      (truncate_for_slack (String.mk (List.replicate 3901 'a'))).length = 3915) ∧
    ("hi".length ≤ 3900 ∧ truncate_for_slack "hi" = "hi") := by
  have hlong : (String.mk (List.replicate 3901 'a')).length > 3900 := by
    rw [string_mk_length, List.length_replicate]
    omega
  exact ⟨⟨hlong, (truncate_for_slack_spec (String.mk (List.replicate 3901 'a'))).1 hlong⟩,
    by decide, (truncate_for_slack_spec "hi").2.1 (by decide)⟩

/-- C9: with an empty (unset) signing secret, `verify_slack_signature`
accepts every request — any body, timestamp and signature, however stale
or malformed — so no request is rejected at the boundary. -/
theorem verify_slack_signature_empty_secret
    (hh : String → String → String) (pf : String → Option ℚ) (now : ℚ)
    (body ts sig : String) :
    verify_slack_signature "" hh pf now body ts sig = true := by
  simp [verify_slack_signature]

/-- C8 (counterexample): with a prior bot message and a prior human
message, `format_thread_context` returns a block of three non-empty
lines, not two — the fixed header line precedes the two role-labeled
lines, so not every line of the returned block is labeled by role. -/
theorem format_thread_context_header_counterexample :
    format_thread_context [⟨"hello", "B01", ""⟩, ⟨"hi there", "", ""⟩, ⟨"now", "", ""⟩] =
      "Previous conversation in this thread:\nBot: hello\nUser: hi there\n" ∧
    ((splitNl ("Previous conversation in this thread:\nBot: hello\nUser: hi there\n").toList).filter
      (fun l => l ≠ [])).length ≠ 2 := by
  decide

/-- C8 (amended): a message list of length zero or one yields the empty
string; a list of a prior bot message and a prior human message (both
with non-empty text after mention-stripping) followed by the current
request yields a context block made of the fixed header line plus one
`Bot:`-labeled and one `User:`-labeled line, the latest message excluded,
with a trailing newline. -/
theorem format_thread_context_spec :
    (∀ ms : List SlackMsg, ms.length ≤ 1 → format_thread_context ms = "") ∧
    (∀ m1 m2 m3 : SlackMsg,
      pyStripS (stripMentions m1.text) ≠ "" → m1.bot_id ≠ "" →
      pyStripS (stripMentions m2.text) ≠ "" → m2.bot_id = "" → m2.subtype = "" →
      format_thread_context [m1, m2, m3] =
        "Previous conversation in this thread:" ++ "\n" ++
          "Bot: " ++ pyStripS (stripMentions m1.text) ++ "\n" ++
          "User: " ++ pyStripS (stripMentions m2.text) ++ "\n") := by
  constructor
  · intro ms hms
    simp [format_thread_context, hms]
  · intro m1 m2 m3 h1 hb1 h2 hb2 hs2
    simp [format_thread_context, joinWithNl, h1, hb1, h2, hb2, hs2, String.append_assoc]
    rw [← String.append_assoc "\n" "User: " (pyStripS (stripMentions m2.text) ++ "\n"),
      show ("\n" ++ "User: " : String) = "\nUser: " from rfl,
      ← String.append_assoc "Previous conversation in this thread:\n" "Bot: "
        (pyStripS (stripMentions m1.text) ++
          ("\nUser: " ++ (pyStripS (stripMentions m2.text) ++ "\n"))),
      show ("Previous conversation in this thread:\n" ++ "Bot: " : String) =
        "Previous conversation in this thread:\nBot: " from rfl]

theorem format_thread_context_spec_witness :
    format_thread_context [⟨"one", "", ""⟩] = "" ∧
    format_thread_context [⟨"hello", "B01", ""⟩, ⟨"<@U123> hi there", "", ""⟩, ⟨"now", "", ""⟩] =
      "Previous conversation in this thread:" ++ "\n" ++
        "Bot: " ++ pyStripS (stripMentions "hello") ++ "\n" ++
        "User: " ++ pyStripS (stripMentions "<@U123> hi there") ++ "\n" :=
  ⟨format_thread_context_spec.1 [⟨"one", "", ""⟩] (by decide),
   format_thread_context_spec.2 ⟨"hello", "B01", ""⟩ ⟨"<@U123> hi there", "", ""⟩ ⟨"now", "", ""⟩
     (by decide) (by decide) (by decide) rfl rfl⟩

/-- C10: a JSON event-callback payload whose event carries a truthy
`bot_id` or whose subtype is `"bot_message"` makes the webhook handler
return an ok response without scheduling `handle_event`, so the
Dispatcher is never invoked for bot-originated messages. -/
theorem slack_events_ignores_bot_messages (p : EventPayload)
    (htype : p.type = "event_callback")
    (hbot : p.event.bot_id ≠ "" ∨ p.event.subtype = "bot_message") :
    slack_events p = .okIgnoredBot := by
  rcases hbot with hb | hb <;> simp [slack_events, htype, hb]

theorem slack_events_ignores_bot_messages_witness :
    slack_events ⟨"event_callback", "", ⟨"B123", "", "hello", "U1", "C1", "", "1.0"⟩⟩ =
      .okIgnoredBot ∧
    slack_events ⟨"event_callback", "", ⟨"", "bot_message", "hello", "U1", "C1", "", "1.0"⟩⟩ =
      .okIgnoredBot :=
  ⟨slack_events_ignores_bot_messages _ rfl (Or.inl (by decide)),
   slack_events_ignores_bot_messages _ rfl (Or.inr rfl)⟩

/-- C7 (counterexample): a task file whose content `json.loads` rejects
makes `read_task` raise (the `JSONDecodeError` escapes — there is no
try/except around `json.loads`), rather than return the absent result
`None`. -/
theorem read_task_malformed_counterexample :
    read_task (fun _ => none) ⟨200, "not json", "sha1"⟩ "tasks/t1.json" = .raised ∧
    read_task (fun _ => none) ⟨200, "not json", "sha1"⟩ "tasks/t1.json" ≠ .httpAbsent := by
  decide

/-- C7 (amended): on a task file whose content is not well-formed JSON,
`read_task` raises (it does not return the absent result); the poll loop
catches the exception at the iteration boundary, so the task file is
never deleted during that poll iteration and remains listed for a later
reattempt; `read_task` does return the absent result when the underlying
HTTP read fails (non-200 status). -/
theorem read_task_malformed_spec :
    (∀ (jl : String → Option TaskFields) (resp : GhFileResponse) (path : String),
      resp.status = 200 → jl resp.content = none → read_task jl resp path = .raised) ∧
    (∀ (jl : String → Option TaskFields) (resp : GhFileResponse) (path : String),
      resp.status ≠ 200 → read_task jl resp path = .httpAbsent) ∧
    (∀ (jl : String → Option TaskFields) (msgsOf : TaskRec → List SlackMsg)
       (outOf : TaskRec → String) (files : List (String × GhFileResponse))
       (path : String) (resp : GhFileResponse) (sha : String),
      resp.status = 200 → jl resp.content = none →
      (path, resp) ∈ files → (∀ r, (path, r) ∈ files → r = resp) →
      DaemonEffect.deleteTask path sha ∉ poll_iteration jl msgsOf outOf files) := by
  refine ⟨?_, ?_, ?_⟩
  · intro jl resp path hstatus hparse
    simp [read_task, hstatus, hparse]
  · intro jl resp path hstatus
    simp [read_task, hstatus]
  · intro jl msgsOf outOf files path resp sha hstatus hparse
    induction files with
    | nil => intro hmem _; cases hmem
    | cons head rest ih =>
      intro hmem huniq
      obtain ⟨q, r⟩ := head
      by_cases hq : q = path
      · subst hq
        have hr : r = resp := huniq r (List.mem_cons_self _ _)
        subst hr
        simp [poll_iteration, read_task, hstatus, hparse]
      · have hmem' : (path, resp) ∈ rest := by
          rcases List.mem_cons.mp hmem with he | hm
          · exact absurd (congrArg Prod.fst he.symm) hq
          · exact hm
        have huniq' : ∀ r', (path, r') ∈ rest → r' = resp :=
          fun r' h => huniq r' (List.mem_cons_of_mem _ h)
        simp only [poll_iteration]
        cases hrt : read_task jl r q with
        | raised => simp
        | httpAbsent => exact ih hmem' huniq'
        | ok t =>
          intro hmem2
          rcases List.mem_append.mp hmem2 with hL | hR
          · have hpt : path = t.path := (deleteTask_mem_process_task hL).1
            have hq2 : t.path = q := read_task_ok_path hrt
            exact hq (by rw [← hq2, ← hpt])
          · exact ih hmem' huniq' hR

theorem read_task_malformed_spec_witness :
    read_task (fun _ => none) ⟨200, "oops", "s"⟩ "tasks/a.json" = .raised ∧
    read_task (fun _ => none) ⟨404, "oops", "s"⟩ "tasks/a.json" = .httpAbsent ∧
    DaemonEffect.deleteTask "tasks/a.json" "s" ∉
      poll_iteration (fun _ => none) (fun _ => []) (fun _ => "")
        [("tasks/a.json", ⟨200, "oops", "s"⟩)] :=
  ⟨read_task_malformed_spec.1 _ ⟨200, "oops", "s"⟩ "tasks/a.json" rfl rfl,
   read_task_malformed_spec.2.1 _ ⟨404, "oops", "s"⟩ "tasks/a.json" (by decide),
   read_task_malformed_spec.2.2 _ _ _ _ "tasks/a.json" ⟨200, "oops", "s"⟩ "s" rfl rfl
     (by decide) (fun r h => congrArg Prod.snd (List.mem_singleton.mp h))⟩
